import Mathlib

/-!
Verification of the granite2 translation engine against its specification.

The development shallowly embeds the parts of the source that the claims
touch: the Petri-net construction interface (`petri_net_interface.rs` over
the `netcrab` net type), the condition-variable gadget and its call
translations (`translator/sync/condvar.rs`, `condvar_manager.rs`), the
terminator dispatch of the MIR visitor (`translator/mir_visitor.rs`), the
synchronization dispatch (`translator/sync.rs`), the naming functions
(`naming/function.rs`, `naming/thread.rs`) and the utility functions
(`utils.rs`).  Parts of the repository that the claims need but whose
source files are not in the snapshot (the mutex model, the foreign-call
helper, some naming and argument-extraction helpers) are modelled from the
specification; each such definition says so in its doc comment.
-/

/-! ## The Petri net under construction

The net type lives in the external `netcrab` library; the engine reaches it
only through the append-only construction interface (spec section 2: add
place, add transition, add weighted arc, add initial tokens, and these
never fail under correct use).  Places and transitions are identified by
their labels; every arc of the engine has multiplicity one. -/

/-- A reference to a place: `netcrab`'s `PlaceRef` wraps the label. -/
abbrev PlaceRef := String

/-- A reference to a transition: `netcrab`'s `TransitionRef` wraps the label. -/
abbrev TransitionRef := String

/-- The net under construction: places with their initial marking,
transitions, and the two arc directions, in insertion order. -/
structure PetriNet where
  places : List (PlaceRef × Nat)
  transitions : List TransitionRef
  arcsPT : List (PlaceRef × TransitionRef)
  arcsTP : List (TransitionRef × PlaceRef)
deriving DecidableEq, Repr

/-- The net with no places, transitions or arcs. -/
def PetriNet.empty : PetriNet := ⟨[], [], [], []⟩

/-- `netcrab`'s `add_place`: appends a place with zero initial tokens and
returns its reference. -/
def PetriNet.add_place (net : PetriNet) (label : String) : PlaceRef × PetriNet :=
  (label, { net with places := net.places ++ [(label, 0)] })

/-- `netcrab`'s `add_transition`: appends a transition and returns its reference. -/
def PetriNet.add_transition (net : PetriNet) (label : String) : TransitionRef × PetriNet :=
  (label, { net with transitions := net.transitions ++ [label] })

/-- Adds `n` tokens to the first place with the given label. -/
def addTokenToPlaces : List (PlaceRef × Nat) → PlaceRef → Nat → List (PlaceRef × Nat)
  | [], _, _ => []
  | (l, k) :: rest, p, n =>
      if l = p then (l, k + n) :: rest else (l, k) :: addTokenToPlaces rest p n

/-- `netcrab`'s `add_token`: raises the initial marking of a place. -/
def PetriNet.add_token (net : PetriNet) (p : PlaceRef) (n : Nat) : PetriNet :=
  { net with places := addTokenToPlaces net.places p n }

/-- `petri_net_interface.rs`: arc place → transition with multiplicity one
(the wrapper panics only when the references are invalid, which cannot
happen for references the interface itself handed out). -/
def add_arc_place_transition (net : PetriNet) (p : PlaceRef) (t : TransitionRef) : PetriNet :=
  { net with arcsPT := net.arcsPT ++ [(p, t)] }

/-- `petri_net_interface.rs`: arc transition → place with multiplicity one. -/
def add_arc_transition_place (net : PetriNet) (t : TransitionRef) (p : PlaceRef) : PetriNet :=
  { net with arcsTP := net.arcsTP ++ [(t, p)] }

/-! ## Naming -/

/-- Modelled from the spec: `naming::sanitize` is not in the source snapshot.
Section 6: sanitization maps any character unsuitable for a plain identifier
to a safe substitute, deterministically. -/
def sanitize (name : String) : String :=
  String.mk (name.toList.map (fun c => if c.isAlphanum then c else '_'))

/-- `naming/function.rs`: label of the transition for a function's return statement. -/
def return_transition_label (function_name : String) : String :=
  sanitize function_name ++ "_RETURN"

/-- `naming/function.rs`: labels of the transitions for a call to a foreign function. -/
def foreign_call_transition_labels (function_name : String) : String × String :=
  (sanitize function_name ++ "_CALL", sanitize function_name ++ "_CALL_UNWIND")

/-- `naming/function.rs`: label of the transition for a diverging function call. -/
def diverging_call_transition_label (function_name : String) : String :=
  sanitize function_name ++ "_DIVERGING_CALL"

/-- `naming/function.rs`: label of the transition for a call to `panic!`. -/
def panic_transition_label (function_name : String) : String :=
  sanitize function_name ++ "_PANIC"

/-- `naming/thread.rs`: labels of the transitions for a call to `std::thread::spawn`. -/
def spawn_transition_labels (index : Nat) : String × String :=
  ("std_thread_spawn_" ++ toString index, "std_thread_spawn_" ++ toString index ++ "_UNWIND")

/-- `naming/thread.rs`: labels of the transitions for a call to
`std::thread::JoinHandle::<T>::join`. -/
def join_transition_labels (index : Nat) : String × String :=
  ("std_thread_JoinHandle_T_join_" ++ toString index,
   "std_thread_JoinHandle_T_join_" ++ toString index ++ "_UNWIND")

/-- `naming/thread.rs`: label of the place that models the thread start state. -/
def start_place_label (index : Nat) : String :=
  "THREAD_" ++ toString index ++ "_START"

/-- `naming/thread.rs`: label of the place that models the thread end state. -/
def end_place_label (index : Nat) : String :=
  "THREAD_" ++ toString index ++ "_END"

/-- Modelled from the spec: `naming::condvar::place_labels` is not in the source
snapshot.  Section 6: deterministic, collision-free indexed labels per handle;
the four roles are the ones named in `translator/sync/condvar.rs`. -/
def condvar_place_labels (index : Nat) : String × String × String × String :=
  ("CONDVAR_" ++ toString index ++ "_LOST_SIGNAL_POSSIBLE",
   "CONDVAR_" ++ toString index ++ "_SIGNAL_INPUT",
   "CONDVAR_" ++ toString index ++ "_WAIT_INPUT",
   "CONDVAR_" ++ toString index ++ "_SIGNAL_OUTPUT")

/-- Modelled from the spec: `naming::condvar::transition_labels` is not in the
source snapshot; indexed labels for the two gadget transitions of
`translator/sync/condvar.rs`. -/
def condvar_transition_labels (index : Nat) : String × String :=
  ("CONDVAR_" ++ toString index ++ "_LOST_SIGNAL", "CONDVAR_" ++ toString index ++ "_SIGNAL")

/-- Modelled from the spec: `naming::condvar::new_transition_labels` is not in
the source snapshot; section 6 prescribes a fixed per-operation prefix plus a
zero-based counter, with an `_UNWIND` suffix for the abnormal-path variant. -/
def condvar_new_transition_labels (index : Nat) : String × String :=
  ("std_sync_Condvar_new_" ++ toString index,
   "std_sync_Condvar_new_" ++ toString index ++ "_UNWIND")

/-- Modelled from the spec: `naming::condvar::wait_transition_labels` is not in
the source snapshot; the three labels (wait start, wait end, unwind) follow the
per-operation wait counter of `CondvarManager::translate_call_wait`. -/
def wait_transition_labels (index : Nat) : String × String × String :=
  ("std_sync_Condvar_wait_" ++ toString index ++ "_START",
   "std_sync_Condvar_wait_" ++ toString index ++ "_END",
   "std_sync_Condvar_wait_" ++ toString index ++ "_UNWIND")

/-- Modelled from the spec: `naming::condvar::notify_one_transition_labels` is
not in the source snapshot; per-operation prefix plus zero-based counter. -/
def notify_one_transition_labels (index : Nat) : String × String :=
  ("std_sync_Condvar_notify_one_" ++ toString index,
   "std_sync_Condvar_notify_one_" ++ toString index ++ "_UNWIND")

/-! ## The condition-variable gadget (`translator/sync/condvar.rs`) -/

/-- The four places of one condition variable's gadget. -/
structure Condvar where
  lost_signal_possible : PlaceRef
  signal_input : PlaceRef
  wait_input : PlaceRef
  signal_output : PlaceRef
deriving DecidableEq, Repr

/-- `Condvar::new`: adds the four places (one initial token in
`lost_signal_possible`), the two transitions and the seven arcs of the
lost-signal gadget, in the source's order. -/
def Condvar.new (index : Nat) (net : PetriNet) : Condvar × PetriNet :=
  let (p1, p2, p3, p4) := condvar_place_labels index
  let (lost_signal_possible, net) := net.add_place p1
  let (signal_input, net) := net.add_place p2
  let (wait_input, net) := net.add_place p3
  let (signal_output, net) := net.add_place p4
  let net := net.add_token lost_signal_possible 1
  let (t1, t2) := condvar_transition_labels index
  let (lost_signal_transition, net) := net.add_transition t1
  let (signal_transition, net) := net.add_transition t2
  let net := add_arc_place_transition net lost_signal_possible lost_signal_transition
  let net := add_arc_place_transition net signal_input lost_signal_transition
  let net := add_arc_place_transition net wait_input signal_transition
  let net := add_arc_place_transition net signal_input signal_transition
  let net := add_arc_transition_place net lost_signal_transition lost_signal_possible
  let net := add_arc_transition_place net signal_transition lost_signal_possible
  let net := add_arc_transition_place net signal_transition signal_output
  ({ lost_signal_possible := lost_signal_possible, signal_input := signal_input,
     wait_input := wait_input, signal_output := signal_output }, net)

/-- `Condvar::link_to_wait_call`: `lost_signal_possible` → wait-start,
wait-start → `wait_input`, `signal_output` → wait-end. -/
def Condvar.link_to_wait_call (cv : Condvar) (wait_start_transition : TransitionRef)
    (wait_end_transition : TransitionRef) (net : PetriNet) : PetriNet :=
  let net := add_arc_place_transition net cv.lost_signal_possible wait_start_transition
  let net := add_arc_transition_place net wait_start_transition cv.wait_input
  add_arc_place_transition net cv.signal_output wait_end_transition

/-- `Condvar::link_to_notify_one_call`: one arc from the call's transition into
`signal_input`. -/
def Condvar.link_to_notify_one_call (cv : Condvar) (signal_transition : TransitionRef)
    (net : PetriNet) : PetriNet :=
  add_arc_transition_place net signal_transition cv.signal_input

/-- The four places of a condition variable's gadget, as a list. -/
def Condvar.gadget_places (cv : Condvar) : List PlaceRef :=
  [cv.lost_signal_possible, cv.signal_input, cv.wait_input, cv.signal_output]

/-! ## Helper lemmas about the marking update -/

theorem addTokenToPlaces_append_fresh (l₁ l₂ : List (PlaceRef × Nat)) (p : PlaceRef) (n : Nat)
    (h : p ∉ l₁.map Prod.fst) :
    addTokenToPlaces (l₁ ++ l₂) p n = l₁ ++ addTokenToPlaces l₂ p n := by
  induction l₁ with
  | nil => rfl
  | cons a l ih =>
      obtain ⟨l', k⟩ := a
      simp only [List.map_cons, List.mem_cons] at h
      push_neg at h
      simp only [List.cons_append, addTokenToPlaces, if_neg (Ne.symm h.1)]
      rw [show l.append l₂ = l ++ l₂ from rfl, ih h.2]

/-! ## The mutex gadget and the call fragments -/

/-- Modelled from the spec: `translator/sync/mutex.rs` is not in the source
snapshot.  Section 4.3: each mutex owns an unlocked/locked pair of places
(unlocked initially marked); a lock transition consumes `unlocked` and
produces `locked`, an unlock transition reverses those arcs. -/
structure Mutex where
  unlocked : PlaceRef
  locked : PlaceRef
deriving DecidableEq, Repr

/-- Modelled from the spec: `MutexManager::add_unlock_guard` is not in the
source snapshot.  Section 4.3 and 4.4: the given transition unlocks the mutex,
reversing the lock transition's arcs (consume `locked`, produce `unlocked`). -/
def Mutex.add_unlock_guard (m : Mutex) (transition : TransitionRef) (net : PetriNet) : PetriNet :=
  add_arc_transition_place (add_arc_place_transition net m.locked transition) transition m.unlocked

/-- Modelled from the spec: `MutexManager::add_lock_guard` is not in the source
snapshot.  Section 4.3: the given transition locks the mutex (consume
`unlocked`, produce `locked`). -/
def Mutex.add_lock_guard (m : Mutex) (transition : TransitionRef) (net : PetriNet) : PetriNet :=
  add_arc_transition_place (add_arc_place_transition net m.unlocked transition) transition m.locked

/-- The start place, end place and optional cleanup place of a call site
(`FunctionPlaces` in `condvar_manager.rs`). -/
abbrev FunctionPlaces := PlaceRef × PlaceRef × Option PlaceRef

/-- Modelled from the spec: `special_function::call_foreign_function` is not in
the source snapshot.  Section 4.1: a foreign call is a single opaque call
transition from the call's start place to its end place, plus an
unwind-variant transition to the cleanup place exactly when one exists;
the same shape as `CondvarManager::create_wait_function_call`. -/
def call_foreign_function (function_call_places : FunctionPlaces)
    (transition_labels : String × String) (net : PetriNet) : TransitionRef × PetriNet :=
  let (start_place, end_place, cleanup_place) := function_call_places
  let (transition, net) := net.add_transition transition_labels.1
  let net := add_arc_place_transition net start_place transition
  let net := add_arc_transition_place net transition end_place
  let net :=
    match cleanup_place with
    | some cleanup_place =>
        let (unwind_transition, net) := net.add_transition transition_labels.2
        let net := add_arc_place_transition net start_place unwind_transition
        add_arc_transition_place net unwind_transition cleanup_place
    | none => net
  (transition, net)

/-- `CondvarManager::create_wait_function_call`: wait-start transition consuming
the call's start place, wait-end transition producing into the call's end
place, and an unwind transition (start place → cleanup place) exactly when a
cleanup place exists. -/
def create_wait_function_call (function_call_places : FunctionPlaces)
    (transition_labels : String × String × String) (net : PetriNet) :
    (TransitionRef × TransitionRef) × PetriNet :=
  let (start_place, end_place, cleanup_place) := function_call_places
  let (wait_start_transition, net) := net.add_transition transition_labels.1
  let net := add_arc_place_transition net start_place wait_start_transition
  let (wait_end_transition, net) := net.add_transition transition_labels.2.1
  let net := add_arc_transition_place net wait_end_transition end_place
  let net :=
    match cleanup_place with
    | some cleanup_place =>
        let (unwind_transition, net) := net.add_transition transition_labels.2.2
        let net := add_arc_place_transition net start_place unwind_transition
        add_arc_transition_place net unwind_transition cleanup_place
    | none => net
  ((wait_start_transition, wait_end_transition), net)

/-- `CondvarManager::translate_call_wait`: the wait fragment is labelled from
the shared wait counter, which is incremented on every call. -/
def translate_call_wait (wait_counter : Nat) (function_call_places : FunctionPlaces)
    (net : PetriNet) : ((TransitionRef × TransitionRef) × Nat × PetriNet) :=
  let index := wait_counter
  let (transitions, net) :=
    create_wait_function_call function_call_places (wait_transition_labels index) net
  (transitions, index + 1, net)

/-- `CondvarManager::translate_side_effects_wait`: the mutex behind the
lock-guard argument (resolved through `Memory::get_linked_lock_guard`) is
unlocked at the wait-start transition and locked again at the wait-end
transition, then the condvar (resolved through `Memory::get_linked_condvar`)
is linked to the two transitions.  The two memory lookups live in
`mir_function.rs`, which is not in the source snapshot; the resolved handles
are therefore taken as arguments. -/
def translate_side_effects_wait (mutex : Mutex) (condvar : Condvar)
    (wait_transitions : TransitionRef × TransitionRef) (net : PetriNet) : PetriNet :=
  let net := mutex.add_unlock_guard wait_transitions.1 net
  let net := mutex.add_lock_guard wait_transitions.2 net
  condvar.link_to_wait_call wait_transitions.1 wait_transitions.2 net

/-- `CondvarManager::translate_call_notify_one`: a foreign-call fragment
labelled from the shared notify-one counter, which is incremented. -/
def translate_call_notify_one (notify_one_counter : Nat)
    (function_call_places : FunctionPlaces) (net : PetriNet) :
    TransitionRef × Nat × PetriNet :=
  let index := notify_one_counter
  let (transition, net) :=
    call_foreign_function function_call_places (notify_one_transition_labels index) net
  (transition, index + 1, net)

/-- `CondvarManager::translate_side_effects_notify_one`: the condvar resolved
from the first argument is linked to the call's transition. -/
def translate_side_effects_notify_one (condvar : Condvar)
    (notify_one_transition : TransitionRef) (net : PetriNet) : PetriNet :=
  condvar.link_to_notify_one_call notify_one_transition net

/-! ## C1: the gadget emitted by `Condvar::new` -/

/-- C1: for every condition-variable handle created by `Condvar::new`, the
emitted gadget consists of exactly the four places `lost_signal_possible`
(one initial token), `signal_input`, `wait_input`, `signal_output` (zero
tokens), exactly the two transitions `lost_signal_transition` and
`signal_transition`, with `lost_signal_transition` consuming from
`lost_signal_possible` and `signal_input` and producing into
`lost_signal_possible`, and `signal_transition` consuming from
`signal_input` and `wait_input` and producing into `signal_output` and
`lost_signal_possible`; no other place, transition, arc or token is added. -/
theorem condvar_new_emits_exact_gadget (index : Nat) (net : PetriNet)
    (hfresh : (condvar_place_labels index).1 ∉ net.places.map Prod.fst) :
    Condvar.new index net =
      ({ lost_signal_possible := (condvar_place_labels index).1,
         signal_input := (condvar_place_labels index).2.1,
         wait_input := (condvar_place_labels index).2.2.1,
         signal_output := (condvar_place_labels index).2.2.2 },
       { places := net.places ++
           [((condvar_place_labels index).1, 1), ((condvar_place_labels index).2.1, 0),
            ((condvar_place_labels index).2.2.1, 0), ((condvar_place_labels index).2.2.2, 0)],
         transitions := net.transitions ++
           [(condvar_transition_labels index).1, (condvar_transition_labels index).2],
         arcsPT := net.arcsPT ++
           [((condvar_place_labels index).1, (condvar_transition_labels index).1),
            ((condvar_place_labels index).2.1, (condvar_transition_labels index).1),
            ((condvar_place_labels index).2.2.1, (condvar_transition_labels index).2),
            ((condvar_place_labels index).2.1, (condvar_transition_labels index).2)],
         arcsTP := net.arcsTP ++
           [((condvar_transition_labels index).1, (condvar_place_labels index).1),
            ((condvar_transition_labels index).2, (condvar_place_labels index).1),
            ((condvar_transition_labels index).2, (condvar_place_labels index).2.2.2)] }) := by
  simp only [condvar_place_labels] at hfresh
  simp only [Condvar.new, condvar_place_labels, condvar_transition_labels,
    PetriNet.add_place, PetriNet.add_transition, PetriNet.add_token,
    add_arc_place_transition, add_arc_transition_place, List.append_assoc]
  rw [addTokenToPlaces_append_fresh _ _ _ _ hfresh]
  simp [addTokenToPlaces]

/-- C1 witness: the gadget built for index 0 on the empty net. -/
theorem condvar_new_emits_exact_gadget_witness :
    Condvar.new 0 PetriNet.empty =
      ({ lost_signal_possible := (condvar_place_labels 0).1,
         signal_input := (condvar_place_labels 0).2.1,
         wait_input := (condvar_place_labels 0).2.2.1,
         signal_output := (condvar_place_labels 0).2.2.2 },
       { places := PetriNet.empty.places ++
           [((condvar_place_labels 0).1, 1), ((condvar_place_labels 0).2.1, 0),
            ((condvar_place_labels 0).2.2.1, 0), ((condvar_place_labels 0).2.2.2, 0)],
         transitions := PetriNet.empty.transitions ++
           [(condvar_transition_labels 0).1, (condvar_transition_labels 0).2],
         arcsPT := PetriNet.empty.arcsPT ++
           [((condvar_place_labels 0).1, (condvar_transition_labels 0).1),
            ((condvar_place_labels 0).2.1, (condvar_transition_labels 0).1),
            ((condvar_place_labels 0).2.2.1, (condvar_transition_labels 0).2),
            ((condvar_place_labels 0).2.1, (condvar_transition_labels 0).2)],
         arcsTP := PetriNet.empty.arcsTP ++
           [((condvar_transition_labels 0).1, (condvar_place_labels 0).1),
            ((condvar_transition_labels 0).2, (condvar_place_labels 0).1),
            ((condvar_transition_labels 0).2, (condvar_place_labels 0).2.2.2)] }) :=
  condvar_new_emits_exact_gadget 0 PetriNet.empty (by simp [PetriNet.empty])

/-! ## C2: the fragment emitted for a call to `Condvar::wait` -/

/-- C2: a translated `Condvar::wait` call emits a wait-start transition
consuming from the call's start place, a wait-end transition producing into
the call's end place, and an unwind transition (start place → cleanup place)
exactly when a cleanup place exists; the wait-start transition consumes from
the condvar's `lost_signal_possible` and produces into its `wait_input`, the
wait-end transition consumes from its `signal_output`; and the mutex of the
lock-guard argument is unlocked at wait-start (consume `locked`, produce
`unlocked`) and locked again at wait-end.  Nothing else is added. -/
theorem condvar_wait_call_translation (sp ep : PlaceRef) (cp : Option PlaceRef)
    (labels : String × String × String) (m : Mutex) (cv : Condvar) (net : PetriNet) :
    (create_wait_function_call (sp, ep, cp) labels net).1 = (labels.1, labels.2.1) ∧
    translate_side_effects_wait m cv (create_wait_function_call (sp, ep, cp) labels net).1
        (create_wait_function_call (sp, ep, cp) labels net).2 =
      { places := net.places,
        transitions := net.transitions ++ [labels.1, labels.2.1] ++
          (cp.map fun _ => labels.2.2).toList,
        arcsPT := net.arcsPT ++ [(sp, labels.1)] ++
          (cp.map fun _ => (sp, labels.2.2)).toList ++
          [(m.locked, labels.1), (m.unlocked, labels.2.1),
           (cv.lost_signal_possible, labels.1), (cv.signal_output, labels.2.1)],
        arcsTP := net.arcsTP ++ [(labels.2.1, ep)] ++
          (cp.map fun c => (labels.2.2, c)).toList ++
          [(labels.1, m.unlocked), (labels.2.1, m.locked), (labels.1, cv.wait_input)] } := by
  cases cp <;>
    simp [create_wait_function_call, translate_side_effects_wait, Mutex.add_unlock_guard,
      Mutex.add_lock_guard, Condvar.link_to_wait_call, PetriNet.add_transition,
      add_arc_place_transition, add_arc_transition_place, List.append_assoc]

/-! ## C6: the fragment emitted for a call to `Condvar::notify_one` -/

/-- C6: a translated `Condvar::notify_one` call emits one call transition
consuming from the call's start place and producing into its end place (with
the unwind-variant transition exactly when a cleanup place exists), bumps the
per-kind counter, and the only arc touching any place of the condvar gadget
that the translation adds is the single arc from the call transition into
`signal_input`. -/
theorem condvar_notify_one_translation (sp ep : PlaceRef) (cp : Option PlaceRef)
    (counter : Nat) (cv : Condvar) (net : PetriNet)
    (hs : sp ∉ cv.gadget_places) (he : ep ∉ cv.gadget_places)
    (hc : ∀ c, cp = some c → c ∉ cv.gadget_places) :
    (translate_call_notify_one counter (sp, ep, cp) net).1 =
        (notify_one_transition_labels counter).1 ∧
    (translate_call_notify_one counter (sp, ep, cp) net).2.1 = counter + 1 ∧
    translate_side_effects_notify_one cv (translate_call_notify_one counter (sp, ep, cp) net).1
        (translate_call_notify_one counter (sp, ep, cp) net).2.2 =
      { places := net.places,
        transitions := net.transitions ++ [(notify_one_transition_labels counter).1] ++
          (cp.map fun _ => (notify_one_transition_labels counter).2).toList,
        arcsPT := net.arcsPT ++ [(sp, (notify_one_transition_labels counter).1)] ++
          (cp.map fun _ => (sp, (notify_one_transition_labels counter).2)).toList,
        arcsTP := net.arcsTP ++ [((notify_one_transition_labels counter).1, ep)] ++
          (cp.map fun c => ((notify_one_transition_labels counter).2, c)).toList ++
          [((notify_one_transition_labels counter).1, cv.signal_input)] } ∧
    (translate_side_effects_notify_one cv (translate_call_notify_one counter (sp, ep, cp) net).1
        (translate_call_notify_one counter (sp, ep, cp) net).2.2).arcsPT.filter
        (fun a => decide (a.1 ∈ cv.gadget_places)) =
      net.arcsPT.filter (fun a => decide (a.1 ∈ cv.gadget_places)) ∧
    (translate_side_effects_notify_one cv (translate_call_notify_one counter (sp, ep, cp) net).1
        (translate_call_notify_one counter (sp, ep, cp) net).2.2).arcsTP.filter
        (fun a => decide (a.2 ∈ cv.gadget_places)) =
      net.arcsTP.filter (fun a => decide (a.2 ∈ cv.gadget_places)) ++
        [((notify_one_transition_labels counter).1, cv.signal_input)] := by
  obtain ⟨hs1, hs2, hs3, hs4⟩ :
      ¬sp = cv.lost_signal_possible ∧ ¬sp = cv.signal_input ∧
        ¬sp = cv.wait_input ∧ ¬sp = cv.signal_output := by
    simpa [Condvar.gadget_places, not_or] using hs
  obtain ⟨he1, he2, he3, he4⟩ :
      ¬ep = cv.lost_signal_possible ∧ ¬ep = cv.signal_input ∧
        ¬ep = cv.wait_input ∧ ¬ep = cv.signal_output := by
    simpa [Condvar.gadget_places, not_or] using he
  refine ⟨?_, ?_, ?_, ?_, ?_⟩ <;>
    cases cp with
    | none =>
        simp [translate_call_notify_one, translate_side_effects_notify_one,
          call_foreign_function, Condvar.link_to_notify_one_call, PetriNet.add_transition,
          add_arc_place_transition, add_arc_transition_place, List.append_assoc,
          List.filter_append, hs1, hs2, hs3, hs4, he1, he2, he3, he4, Condvar.gadget_places]
    | some c =>
        obtain ⟨hc1, hc2, hc3, hc4⟩ :
            ¬c = cv.lost_signal_possible ∧ ¬c = cv.signal_input ∧
              ¬c = cv.wait_input ∧ ¬c = cv.signal_output := by
          simpa [Condvar.gadget_places, not_or] using hc c rfl
        simp [translate_call_notify_one, translate_side_effects_notify_one,
          call_foreign_function, Condvar.link_to_notify_one_call, PetriNet.add_transition,
          add_arc_place_transition, add_arc_transition_place, List.append_assoc,
          List.filter_append, hs1, hs2, hs3, hs4, he1, he2, he3, he4,
          hc1, hc2, hc3, hc4, Condvar.gadget_places]

/-- C6 witness: a notify-one call with a cleanup place, on a gadget whose
places are distinct from the call's places. -/
theorem condvar_notify_one_translation_witness :
    (translate_call_notify_one 0 ("start", "end", some "cleanup") PetriNet.empty).1 =
        (notify_one_transition_labels 0).1 ∧
    (translate_call_notify_one 0 ("start", "end", some "cleanup") PetriNet.empty).2.1 = 0 + 1 ∧
    translate_side_effects_notify_one ⟨"LSP", "SI", "WI", "SO"⟩
        (translate_call_notify_one 0 ("start", "end", some "cleanup") PetriNet.empty).1
        (translate_call_notify_one 0 ("start", "end", some "cleanup") PetriNet.empty).2.2 =
      { places := PetriNet.empty.places,
        transitions := PetriNet.empty.transitions ++ [(notify_one_transition_labels 0).1] ++
          ((some "cleanup").map fun _ => (notify_one_transition_labels 0).2).toList,
        arcsPT := PetriNet.empty.arcsPT ++ [("start", (notify_one_transition_labels 0).1)] ++
          ((some "cleanup").map fun _ => ("start", (notify_one_transition_labels 0).2)).toList,
        arcsTP := PetriNet.empty.arcsTP ++ [((notify_one_transition_labels 0).1, "end")] ++
          ((some "cleanup").map fun c => ((notify_one_transition_labels 0).2, c)).toList ++
          [((notify_one_transition_labels 0).1, "SI")] } ∧
    (translate_side_effects_notify_one ⟨"LSP", "SI", "WI", "SO"⟩
        (translate_call_notify_one 0 ("start", "end", some "cleanup") PetriNet.empty).1
        (translate_call_notify_one 0 ("start", "end", some "cleanup") PetriNet.empty).2.2).arcsPT.filter
        (fun a => decide (a.1 ∈ Condvar.gadget_places ⟨"LSP", "SI", "WI", "SO"⟩)) =
      PetriNet.empty.arcsPT.filter
        (fun a => decide (a.1 ∈ Condvar.gadget_places ⟨"LSP", "SI", "WI", "SO"⟩)) ∧
    (translate_side_effects_notify_one ⟨"LSP", "SI", "WI", "SO"⟩
        (translate_call_notify_one 0 ("start", "end", some "cleanup") PetriNet.empty).1
        (translate_call_notify_one 0 ("start", "end", some "cleanup") PetriNet.empty).2.2).arcsTP.filter
        (fun a => decide (a.2 ∈ Condvar.gadget_places ⟨"LSP", "SI", "WI", "SO"⟩)) =
      PetriNet.empty.arcsTP.filter
        (fun a => decide (a.2 ∈ Condvar.gadget_places ⟨"LSP", "SI", "WI", "SO"⟩)) ++
        [((notify_one_transition_labels 0).1, "SI")] :=
  condvar_notify_one_translation "start" "end" (some "cleanup") 0 ⟨"LSP", "SI", "WI", "SO"⟩
    PetriNet.empty (by decide) (by decide) (by intro c hc; cases hc; decide)

/-! ## C5: the lost-signal behavior of the gadget

Token game on the four gadget places, restricted to the transitions that can
touch them.  By `condvar_new_emits_exact_gadget` the only transitions of the
gadget itself are `lost_signal_transition` (arcs `lost_signal_possible → t`,
`signal_input → t`, `t → lost_signal_possible`) and `signal_transition`
(arcs `signal_input → t`, `wait_input → t`, `t → lost_signal_possible`,
`t → signal_output`); the only outside arcs into the gadget are the
notify-one call arc into `signal_input` (`Condvar.link_to_notify_one_call`)
and the wait-start arc into `wait_input` paired with the arc out of
`lost_signal_possible` (`Condvar.link_to_wait_call`).  Tokens on places
outside the gadget (the call fragments' start places) are irrelevant to the
gadget's marking and are left implicit, which only enlarges the set of
firing sequences considered. -/

/-- A marking of the four places of one condition-variable gadget. -/
structure CondvarMarking where
  lost_signal_possible : Nat
  signal_input : Nat
  wait_input : Nat
  signal_output : Nat
deriving DecidableEq, Repr

/-- The transitions that can move tokens of the gadget: the two gadget
transitions, a linked notify-one call transition, and a linked wait-start
transition. -/
inductive CondvarFiring where
  | notify
  | lostSignal
  | signal
  | waitStart
deriving DecidableEq, Repr

/-- One firing.  Guards and effects follow the arcs added in `Condvar.new`,
`Condvar.link_to_notify_one_call` and `Condvar.link_to_wait_call`. -/
def condvar_fire (m : CondvarMarking) : CondvarFiring → Option CondvarMarking
  | .notify => some { m with signal_input := m.signal_input + 1 }
  | .lostSignal =>
      if 1 ≤ m.lost_signal_possible ∧ 1 ≤ m.signal_input then
        some { m with signal_input := m.signal_input - 1 }
      else none
  | .signal =>
      if 1 ≤ m.signal_input ∧ 1 ≤ m.wait_input then
        some { lost_signal_possible := m.lost_signal_possible + 1,
               signal_input := m.signal_input - 1,
               wait_input := m.wait_input - 1,
               signal_output := m.signal_output + 1 }
      else none
  | .waitStart =>
      if 1 ≤ m.lost_signal_possible then
        some { m with lost_signal_possible := m.lost_signal_possible - 1,
                      wait_input := m.wait_input + 1 }
      else none

/-- Firing a whole sequence; `none` when some firing in it is not enabled. -/
def condvar_fire_seq (m : CondvarMarking) : List CondvarFiring → Option CondvarMarking
  | [] => some m
  | f :: fs =>
      match condvar_fire m f with
      | some m' => condvar_fire_seq m' fs
      | none => none

/-- The gadget's initial marking: one token in `lost_signal_possible`
(`Condvar::new` adds it), zero elsewhere. -/
def condvar_initial_marking : CondvarMarking := ⟨1, 0, 0, 0⟩

/-- Invariant behind C5: from a marking with no tokens in `wait_input` and
`signal_output`, a firing sequence without `waitStart` keeps both empty and
can never contain a `signal` firing. -/
theorem condvar_fire_seq_no_wait_invariant (seq : List CondvarFiring) :
    ∀ m₀ m : CondvarMarking, m₀.wait_input = 0 → m₀.signal_output = 0 →
      condvar_fire_seq m₀ seq = some m → CondvarFiring.waitStart ∉ seq →
      m.wait_input = 0 ∧ m.signal_output = 0 ∧ CondvarFiring.signal ∉ seq := by
  induction seq with
  | nil =>
      intro m₀ m hw hs hrun _
      simp only [condvar_fire_seq, Option.some.injEq] at hrun
      subst hrun
      exact ⟨hw, hs, by simp⟩
  | cons f fs ih =>
      intro m₀ m hw hs hrun hnw
      have hf : f ≠ CondvarFiring.waitStart := fun h => hnw (h ▸ List.mem_cons_self f fs)
      have hfs : CondvarFiring.waitStart ∉ fs := fun h => hnw (List.mem_cons_of_mem f h)
      cases f with
      | notify =>
          simp only [condvar_fire_seq, condvar_fire] at hrun
          have := ih { m₀ with signal_input := m₀.signal_input + 1 } m hw hs hrun hfs
          exact ⟨this.1, this.2.1, by
            simp only [List.mem_cons, not_or]
            exact ⟨by simp, this.2.2⟩⟩
      | lostSignal =>
          simp only [condvar_fire_seq, condvar_fire] at hrun
          by_cases hcond : 1 ≤ m₀.lost_signal_possible ∧ 1 ≤ m₀.signal_input
          · rw [if_pos hcond] at hrun
            have := ih { m₀ with signal_input := m₀.signal_input - 1 } m hw hs hrun hfs
            exact ⟨this.1, this.2.1, by
              simp only [List.mem_cons, not_or]
              exact ⟨by simp, this.2.2⟩⟩
          · rw [if_neg hcond] at hrun
            exact absurd hrun (by simp)
      | signal =>
          simp only [condvar_fire_seq, condvar_fire] at hrun
          have hcond : ¬(1 ≤ m₀.signal_input ∧ 1 ≤ m₀.wait_input) := by
            rintro ⟨-, hw1⟩
            omega
          rw [if_neg hcond] at hrun
          exact absurd hrun (by simp)
      | waitStart => exact absurd rfl hf

/-- C5: starting from the gadget's initial marking (one token in
`lost_signal_possible`, none in `wait_input`), every firing sequence in which
the wait-start transition never fires leaves `signal_output` empty, and the
`signal_transition` never fires in it: every token a notify-one call produces
into `signal_input` can only be consumed by `lost_signal_transition`. -/
theorem condvar_lost_signal_without_waiter (seq : List CondvarFiring) (m : CondvarMarking)
    (hrun : condvar_fire_seq condvar_initial_marking seq = some m)
    (hnw : CondvarFiring.waitStart ∉ seq) :
    m.signal_output = 0 ∧ CondvarFiring.signal ∉ seq := by
  have h := condvar_fire_seq_no_wait_invariant seq condvar_initial_marking m rfl rfl hrun hnw
  exact ⟨h.2.1, h.2.2⟩

/-- C5 witness: two notify-one firings in a row, each followed by the lost
signal; the marking returns to the initial one and `signal_output` stays
empty. -/
theorem condvar_lost_signal_without_waiter_witness :
    (condvar_fire_seq condvar_initial_marking
        [CondvarFiring.notify, CondvarFiring.lostSignal,
         CondvarFiring.notify, CondvarFiring.lostSignal] =
      some condvar_initial_marking) ∧
    condvar_initial_marking.signal_output = 0 ∧
    CondvarFiring.signal ∉
      [CondvarFiring.notify, CondvarFiring.lostSignal,
       CondvarFiring.notify, CondvarFiring.lostSignal] :=
  ⟨by decide,
   condvar_lost_signal_without_waiter
     [CondvarFiring.notify, CondvarFiring.lostSignal,
      CondvarFiring.notify, CondvarFiring.lostSignal]
     condvar_initial_marking (by decide) (by decide)⟩

/-! ## The MIR fragments the visitor dispatches on (`translator/mir_visitor.rs`,
`utils.rs`)

Places, operands and terminators mirror the `rustc_middle::mir` types as far
as the engine inspects them; everything the engine never reads is omitted. -/

/-- A projection element of a MIR place: a dereference or a field access
(the two kinds `translator/sync.rs` inspects). -/
inductive ProjectionElem where
  | deref
  | field (number : Nat)
deriving DecidableEq, Repr

/-- A MIR place: a local variable slot plus a list of projections. -/
structure Place where
  localIdx : Nat
  projection : List ProjectionElem
deriving DecidableEq, Repr

/-- A MIR operand: copy of a place, move of a place, or a constant. -/
inductive Operand where
  | copy (place : Place)
  | move (place : Place)
  | constant (value : Nat)
deriving DecidableEq, Repr

/-- The kinds of the called value's type that
`extract_def_id_of_called_function_from_operand` distinguishes: a function
pointer, a function definition, a closure, or anything else. -/
inductive FunctionTyKind where
  | fnPtr
  | fnDef (def_id : Nat)
  | closure (def_id : Nat)
  | otherTy (descr : String)
deriving DecidableEq, Repr

/-- The two disjoint failure classes of section 7: an explicitly unsupported
construct (`unimplemented!` in the source), and an internal invariant
violation (`panic!`/`expect` with a BUG message in the source). -/
inductive TranslationError where
  | unsupported (construct : String)
  | internalBug (message : String)
deriving DecidableEq, Repr

/-- `utils.rs`, `extract_def_id_of_called_function_from_operand`: the type of
the called operand (obtained from the constant or from the caller's local
declarations, both at the rustc boundary, here the function `typeOf`) must be
a function definition or a closure; a function pointer is rejected as
unsupported, anything else is an internal invariant violation. -/
def extract_def_id_of_called_function_from_operand (typeOf : Operand → FunctionTyKind)
    (operand : Operand) : Except TranslationError Nat :=
  match typeOf operand with
  | .fnPtr =>
      .error (.unsupported
        "TyKind::FnPtr not implemented yet. Function pointers are present in the MIR")
  | .fnDef def_id => .ok def_id
  | .closure def_id => .ok def_id
  | .otherTy descr =>
      .error (.internalBug ("Expected TyKind::FnDef, a function definition, but got: " ++ descr))

/-- The terminator kinds of the MIR, exactly the variant set matched in
`Visitor::visit_terminator`.  Payloads the source ignores with `..` are
kept only where they make the variant meaningful. -/
inductive TerminatorKind where
  | goto (target : Nat)
  | switchInt (targets : List Nat)
  | resume
  | abort
  | ret
  | unreachable
  | drop (place : Place) (target : Nat) (unwind : Option Nat)
  | dropAndReplace (place : Place) (target : Nat) (unwind : Option Nat)
  | call (func : Operand) (args : List Operand) (destination : Place)
      (target : Option Nat) (cleanup : Option Nat)
  | assert (target : Nat) (cleanup : Option Nat)
  | yield
  | generatorDrop
  | falseEdge (real_target : Nat) (imaginary_target : Nat)
  | falseUnwind (real_target : Nat) (unwind : Option Nat)
  | inlineAsm
deriving DecidableEq, Repr

/-- The control-flow action the visitor performs for a supported terminator:
which handler of the active function (or of the translator) is invoked, with
which arguments. -/
inductive VisitAction where
  | goto (target : Nat)
  | switchInt (targets : List Nat)
  | unwind
  | ret
  | unreachable
  | dropAction (target : Nat) (unwind : Option Nat)
  | callAction (def_id : Nat) (args : List Operand) (destination : Place)
      (target : Option Nat) (cleanup : Option Nat)
  | assertAction (target : Nat) (cleanup : Option Nat)
deriving DecidableEq, Repr

/-- `Visitor::visit_terminator`: the dispatch over the terminator kinds.
Supported kinds yield their control-flow action; the explicitly unmodeled
kinds fail with an `unsupported` error (the source's `unimplemented!`), and
a `Call` first resolves the callee through
`extract_def_id_of_called_function_from_operand`. -/
def visit_terminator (typeOf : Operand → FunctionTyKind) :
    TerminatorKind → Except TranslationError VisitAction
  | .goto target => .ok (.goto target)
  | .switchInt targets => .ok (.switchInt targets)
  | .resume => .ok .unwind
  | .abort => .ok .unwind
  | .ret => .ok .ret
  | .unreachable => .ok .unreachable
  | .drop _ target unwind => .ok (.dropAction target unwind)
  | .dropAndReplace _ _ _ =>
      .error (.unsupported "TerminatorKind::DropAndReplace not implemented yet")
  | .call func args destination target cleanup =>
      (extract_def_id_of_called_function_from_operand typeOf func).map
        (fun def_id => .callAction def_id args destination target cleanup)
  | .assert target cleanup => .ok (.assertAction target cleanup)
  | .yield => .error (.unsupported "TerminatorKind::Yield not implemented yet")
  | .generatorDrop => .error (.unsupported "TerminatorKind::GeneratorDrop not implemented yet")
  | .falseEdge _ _ => .error (.unsupported "TerminatorKind::FalseEdge not implemented yet")
  | .falseUnwind _ _ => .error (.unsupported "TerminatorKind::FalseUnwind not implemented yet")
  | .inlineAsm => .error (.unsupported "TerminatorKind::InlineAsm not implemented yet")

/-! ## C4: unsupported constructs fail fast -/

/-- C4: every explicitly unmodeled terminator kind (DropAndReplace, Yield,
GeneratorDrop, FalseEdge, FalseUnwind, InlineAsm) and every function-pointer
call makes the visitor fail with an `unsupported` error — a class
distinguishable from `internalBug` — and no action is produced for that
path (the result is an error, not a partial translation). -/
theorem unsupported_constructs_fail_fast (typeOf : Operand → FunctionTyKind)
    (p : Place) (t : Nat) (u : Option Nat) (rt it : Nat)
    (f : Operand) (args : List Operand) (dest : Place) (tgt cleanup : Option Nat)
    (hfnptr : typeOf f = FunctionTyKind.fnPtr) :
    visit_terminator typeOf (.dropAndReplace p t u) =
      .error (.unsupported "TerminatorKind::DropAndReplace not implemented yet") ∧
    visit_terminator typeOf .yield =
      .error (.unsupported "TerminatorKind::Yield not implemented yet") ∧
    visit_terminator typeOf .generatorDrop =
      .error (.unsupported "TerminatorKind::GeneratorDrop not implemented yet") ∧
    visit_terminator typeOf (.falseEdge rt it) =
      .error (.unsupported "TerminatorKind::FalseEdge not implemented yet") ∧
    visit_terminator typeOf (.falseUnwind rt u) =
      .error (.unsupported "TerminatorKind::FalseUnwind not implemented yet") ∧
    visit_terminator typeOf .inlineAsm =
      .error (.unsupported "TerminatorKind::InlineAsm not implemented yet") ∧
    visit_terminator typeOf (.call f args dest tgt cleanup) =
      .error (.unsupported
        "TyKind::FnPtr not implemented yet. Function pointers are present in the MIR") ∧
    (∀ s, TranslationError.unsupported s ≠ TranslationError.internalBug s) := by
  refine ⟨rfl, rfl, rfl, rfl, rfl, rfl, ?_, fun s => by simp⟩
  simp [visit_terminator, extract_def_id_of_called_function_from_operand, hfnptr, Except.map]

/-- C4 witness: a function-pointer call at a concrete call site. -/
theorem unsupported_constructs_fail_fast_witness :
    visit_terminator (fun _ => FunctionTyKind.fnPtr)
        (.call (Operand.constant 0) [] ⟨0, []⟩ none none) =
      .error (.unsupported
        "TyKind::FnPtr not implemented yet. Function pointers are present in the MIR") :=
  (unsupported_constructs_fail_fast (fun _ => FunctionTyKind.fnPtr)
    ⟨0, []⟩ 0 none 0 0 (Operand.constant 0) [] ⟨0, []⟩ none none rfl).2.2.2.2.2.2.1

/-! ## Determinism of the visitor dispatch

Supporting development: the visitor's dispatch (`impl Visitor for
Translator`, `visit_terminator`) stated as a step relation with one
constructor per match arm, exactly the source's arms, and its
functionality — a terminator steps to at most one result. -/

/-- The visitor's dispatch as a relation: one constructor per arm of the
`match terminator.kind` in `Visitor::visit_terminator`. -/
inductive VisitStep (typeOf : Operand → FunctionTyKind) :
    TerminatorKind → Except TranslationError VisitAction → Prop where
  | goto (target : Nat) : VisitStep typeOf (.goto target) (.ok (.goto target))
  | switchInt (targets : List Nat) :
      VisitStep typeOf (.switchInt targets) (.ok (.switchInt targets))
  | resume : VisitStep typeOf .resume (.ok .unwind)
  | abort : VisitStep typeOf .abort (.ok .unwind)
  | ret : VisitStep typeOf .ret (.ok .ret)
  | unreachable : VisitStep typeOf .unreachable (.ok .unreachable)
  | drop (place : Place) (target : Nat) (unwind : Option Nat) :
      VisitStep typeOf (.drop place target unwind) (.ok (.dropAction target unwind))
  | dropAndReplace (place : Place) (target : Nat) (unwind : Option Nat) :
      VisitStep typeOf (.dropAndReplace place target unwind)
        (.error (.unsupported "TerminatorKind::DropAndReplace not implemented yet"))
  | call (func : Operand) (args : List Operand) (destination : Place)
      (target : Option Nat) (cleanup : Option Nat) :
      VisitStep typeOf (.call func args destination target cleanup)
        ((extract_def_id_of_called_function_from_operand typeOf func).map
          (fun def_id => .callAction def_id args destination target cleanup))
  | assert (target : Nat) (cleanup : Option Nat) :
      VisitStep typeOf (.assert target cleanup) (.ok (.assertAction target cleanup))
  | yield :
      VisitStep typeOf .yield (.error (.unsupported "TerminatorKind::Yield not implemented yet"))
  | generatorDrop :
      VisitStep typeOf .generatorDrop
        (.error (.unsupported "TerminatorKind::GeneratorDrop not implemented yet"))
  | falseEdge (real_target imaginary_target : Nat) :
      VisitStep typeOf (.falseEdge real_target imaginary_target)
        (.error (.unsupported "TerminatorKind::FalseEdge not implemented yet"))
  | falseUnwind (real_target : Nat) (unwind : Option Nat) :
      VisitStep typeOf (.falseUnwind real_target unwind)
        (.error (.unsupported "TerminatorKind::FalseUnwind not implemented yet"))
  | inlineAsm :
      VisitStep typeOf .inlineAsm
        (.error (.unsupported "TerminatorKind::InlineAsm not implemented yet"))

/-- The dispatch relation agrees with the dispatch function: the function is
a total refinement of the relation. -/
theorem visitStep_of_visit_terminator (typeOf : Operand → FunctionTyKind)
    (k : TerminatorKind) : VisitStep typeOf k (visit_terminator typeOf k) := by
  cases k <;> first
    | exact VisitStep.goto _
    | exact VisitStep.switchInt _
    | exact VisitStep.resume
    | exact VisitStep.abort
    | exact VisitStep.ret
    | exact VisitStep.unreachable
    | exact VisitStep.drop _ _ _
    | exact VisitStep.dropAndReplace _ _ _
    | exact VisitStep.call _ _ _ _ _
    | exact VisitStep.assert _ _
    | exact VisitStep.yield
    | exact VisitStep.generatorDrop
    | exact VisitStep.falseEdge _ _
    | exact VisitStep.falseUnwind _ _
    | exact VisitStep.inlineAsm

/-- The visitor's step relation is functional: for one terminator and one
resolution of callee types there is exactly one result. -/
theorem translation_dispatch_deterministic (typeOf : Operand → FunctionTyKind)
    (k : TerminatorKind) (r₁ r₂ : Except TranslationError VisitAction)
    (h₁ : VisitStep typeOf k r₁) (h₂ : VisitStep typeOf k r₂) : r₁ = r₂ := by
  cases h₁ <;> cases h₂ <;> rfl

/-! ## The synchronization dispatch (`translator/sync.rs`) -/

/-- `is_supported_function`: the supported synchronization and multithreading
functions, exactly the names matched in `translator/sync.rs`. -/
def is_supported_function (function_name : String) : Bool :=
  match function_name with
  | "std::sync::Condvar::new" | "std::sync::Condvar::notify_one"
  | "std::sync::Condvar::wait" | "std::sync::Condvar::wait_while"
  | "std::sync::Mutex::<T>::lock" | "std::sync::Mutex::<T>::new"
  | "std::thread::spawn" | "std::thread::JoinHandle::<T>::join" => true
  | _ => false

/-- A deferred wiring task returned by a handler (spec section 3,
"Postprocessing Task"), resolved once the call's target places exist. -/
inductive PostprocessingTask where
  | linkCondvarWait (args : List Operand) (destination : Place)
      (wait_start wait_end : TransitionRef)
  | linkMutexNew (destination : Place) (index : Nat)
deriving DecidableEq, Repr

/-- Modelled from the spec: `naming::mutex` labels are not in the source
snapshot; per-operation prefix plus zero-based counter (section 6). -/
def mutex_lock_transition_labels (index : Nat) : String × String :=
  ("std_sync_Mutex_T_lock_" ++ toString index,
   "std_sync_Mutex_T_lock_" ++ toString index ++ "_UNWIND")

/-- Modelled from the spec: labels for `std::sync::Mutex::<T>::new` (section 6). -/
def mutex_new_transition_labels (index : Nat) : String × String :=
  ("std_sync_Mutex_T_new_" ++ toString index,
   "std_sync_Mutex_T_new_" ++ toString index ++ "_UNWIND")

/-- Modelled from the spec: labels of the two places of one mutex (section 4.3). -/
def mutex_place_labels (index : Nat) : String × String :=
  ("MUTEX_" ++ toString index ++ "_UNLOCKED", "MUTEX_" ++ toString index ++ "_LOCKED")

/-- Modelled from the spec: `Mutex::new` is not in the source snapshot.
Section 4.3: an unlocked/locked pair of places, unlocked initially marked. -/
def Mutex.new (index : Nat) (net : PetriNet) : Mutex × PetriNet :=
  let labels := mutex_place_labels index
  let (unlocked, net) := net.add_place labels.1
  let (locked, net) := net.add_place labels.2
  let net := net.add_token unlocked 1
  ({ unlocked := unlocked, locked := locked }, net)

/-- Modelled from the spec: `condvar::call_new` (module function of the
dispatch) is not in the source snapshot.  It emits the foreign-call fragment
for `Condvar::new` (`CondvarManager::translate_call_new`) and the gadget of
the new condition variable (`translate_side_effects_new`); the binding of the
destination slot to the new handle lives at the Memory boundary. -/
def condvar_call_new (index : Nat) (destination : Place) (places : FunctionPlaces)
    (net : PetriNet) : PetriNet :=
  let (_, net) := call_foreign_function places (condvar_new_transition_labels index) net
  (Condvar.new index net).2

/-- Modelled from the spec: `condvar::call_notify_one` is not in the source
snapshot.  It emits the foreign-call fragment of
`CondvarManager::translate_call_notify_one`; the arc into the condvar's
`signal_input` is the side effect resolved through the Memory boundary
(`translate_side_effects_notify_one`). -/
def condvar_call_notify_one (index : Nat) (args : List Operand) (places : FunctionPlaces)
    (net : PetriNet) : PetriNet :=
  (call_foreign_function places (notify_one_transition_labels index) net).2

/-- Modelled from the spec: `condvar::call_wait` is not in the source
snapshot.  It emits the two-transition wait fragment of
`CondvarManager::create_wait_function_call`, labelled from the shared
per-operation wait counter (`CondvarManager::translate_call_wait`; section 6:
a fixed textual prefix per operation plus a zero-based per-kind counter).
The function name passed down by the dispatch plays no role in the emitted
fragment. -/
def condvar_call_wait (function_name : String) (index : Nat) (args : List Operand)
    (destination : Place) (places : FunctionPlaces) (net : PetriNet) :
    (TransitionRef × TransitionRef) × PetriNet :=
  create_wait_function_call places (wait_transition_labels index) net

/-- Modelled from the spec: `mutex::call_lock` is not in the source snapshot.
It emits the foreign-call fragment for `Mutex::<T>::lock`; the lock arcs are
resolved through the Memory boundary (section 4.3). -/
def mutex_call_lock (index : Nat) (args : List Operand) (destination : Place)
    (places : FunctionPlaces) (net : PetriNet) : PetriNet :=
  (call_foreign_function places (mutex_lock_transition_labels index) net).2

/-- Modelled from the spec: `mutex::call_new` is not in the source snapshot.
It emits the foreign-call fragment for `Mutex::<T>::new` and the new mutex's
pair of places (section 4.3), returning a deferred task for the destination
binding. -/
def mutex_call_new (index : Nat) (destination : Place) (places : FunctionPlaces)
    (net : PetriNet) : PetriNet :=
  let (_, net) := call_foreign_function places (mutex_new_transition_labels index) net
  (Mutex.new index net).2

/-- Modelled from the spec: `thread::call_join` is not in the source snapshot.
It emits the foreign-call fragment for `JoinHandle::<T>::join`, labelled by
`join_transition_labels`; the consuming arc from the thread's end place is
resolved through the Memory boundary (section 4.5). -/
def thread_call_join (index : Nat) (args : List Operand) (places : FunctionPlaces)
    (net : PetriNet) : PetriNet :=
  (call_foreign_function places (join_transition_labels index) net).2

/-- `call_function` of `translator/sync.rs`: dispatch to the handler of the
supported synchronization function, with the source's match arms; an
unmatched name is the `BUG: Call handler ... is not defined` panic. -/
def call_function (function_name : String) (index : Nat) (args : List Operand)
    (destination : Place) (places : FunctionPlaces) (net : PetriNet) :
    Except String (PetriNet × Option PostprocessingTask) :=
  match function_name with
  | "std::sync::Condvar::new" =>
      .ok (condvar_call_new index destination places net, none)
  | "std::sync::Condvar::notify_one" =>
      .ok (condvar_call_notify_one index args places net, none)
  | "std::sync::Condvar::wait" | "std::sync::Condvar::wait_while" =>
      let (transitions, net) := condvar_call_wait function_name index args destination places net
      .ok (net, some (.linkCondvarWait args destination transitions.1 transitions.2))
  | "std::sync::Mutex::<T>::lock" =>
      .ok (mutex_call_lock index args destination places net, none)
  | "std::sync::Mutex::<T>::new" =>
      .ok (mutex_call_new index destination places net, some (.linkMutexNew destination index))
  | "std::thread::JoinHandle::<T>::join" =>
      .ok (thread_call_join index args places net, none)
  | _ => .error ("BUG: Call handler for " ++ function_name ++ " is not defined")

/-! ## C9: `wait_while` is dispatched exactly as `wait` -/

/-- C9: `std::sync::Condvar::wait_while` is a supported primitive and the
dispatch sends it to the same handler as `std::sync::Condvar::wait` with the
same arguments (same call index, argument list, destination, call places and
net), so the emitted net fragment and the deferred linking task — hence the
mutex unlock/re-lock side effects and the shared wait-counter labels — are
identical to those a `wait` call would produce at the same site. -/
theorem wait_while_dispatched_as_wait (index : Nat) (args : List Operand)
    (destination : Place) (places : FunctionPlaces) (net : PetriNet) :
    is_supported_function "std::sync::Condvar::wait_while" = true ∧
    is_supported_function "std::sync::Condvar::wait" = true ∧
    call_function "std::sync::Condvar::wait_while" index args destination places net =
      call_function "std::sync::Condvar::wait" index args destination places net :=
  ⟨rfl, rfl, rfl⟩

/-! ## The per-function memory and the linking of sync variables
(`translator/sync.rs`, `utils.rs`) -/

/-- The slot-to-handle memory of one activation record, restricted to the
links the claims inspect.  `mir_function.rs` is not in the source snapshot;
modelled from the spec (section 4.2): `link_place_to_same_value` records that
a place denotes whatever another place denotes, `link_field_in_aggregate`
records a link to a field of an aggregate place. -/
structure Memory where
  value_links : List (Place × Place)
  field_links : List (Place × Place × Nat)
deriving DecidableEq, Repr

/-- Modelled from the spec (section 4.2, `link(dst_slot, src_slot)`). -/
def Memory.link_place_to_same_value (memory : Memory) (place_to_link place_linked : Place) :
    Memory :=
  { memory with value_links := memory.value_links ++ [(place_to_link, place_linked)] }

/-- Modelled from the spec (section 4.2, `link_field(dst, aggregate, index)`). -/
def Memory.link_field_in_aggregate (memory : Memory) (place_to_link base_place : Place)
    (field_number : Nat) : Memory :=
  { memory with field_links := memory.field_links ++ [(place_to_link, base_place, field_number)] }

/-- Modelled from the spec: `utils::check_substring_in_place_type` is not in
the source snapshot.  Section 6: a local slot's declared type string (queried
at the rustc boundary, here the function `typeOf`) is checked for a substring
to recognize supported primitive types. -/
def check_substring_in_place_type (typeOf : Place → String) (place : Place)
    (expected : String) : Bool :=
  decide (List.IsInfix (expected.toList) ((typeOf place).toList))

/-- `check_if_sync_variable` of `translator/sync.rs`: a place holds a sync
variable when its type mentions a mutex guard, a mutex, a join handle or a
condition variable. -/
def check_if_sync_variable (typeOf : Place → String) (place : Place) : Bool :=
  check_substring_in_place_type typeOf place "std::sync::MutexGuard<" ||
  check_substring_in_place_type typeOf place "std::sync::Mutex<" ||
  check_substring_in_place_type typeOf place "std::thread::JoinHandle<" ||
  check_substring_in_place_type typeOf place "std::sync::Condvar"

/-- `generalized_link_place_if_sync_variable` of `translator/sync.rs`: links
`place_linked` to `place_to_link` once for every matching sync type of
`place_to_check_type`. -/
def generalized_link_place_if_sync_variable (typeOf : Place → String)
    (place_to_link place_linked place_to_check_type : Place) (memory : Memory) : Memory :=
  let memory :=
    if check_substring_in_place_type typeOf place_to_check_type "std::sync::MutexGuard<" then
      memory.link_place_to_same_value place_to_link place_linked
    else memory
  let memory :=
    if check_substring_in_place_type typeOf place_to_check_type "std::sync::Mutex<" then
      memory.link_place_to_same_value place_to_link place_linked
    else memory
  let memory :=
    if check_substring_in_place_type typeOf place_to_check_type "std::thread::JoinHandle<" then
      memory.link_place_to_same_value place_to_link place_linked
    else memory
  if check_substring_in_place_type typeOf place_to_check_type "std::sync::Condvar" then
    memory.link_place_to_same_value place_to_link place_linked
  else memory

/-- The last field number among the projection elements, as the source's loop
computes it (each `Field` projection overwrites the previous one). -/
def last_field_number (projection : List ProjectionElem) : Option Nat :=
  (projection.filterMap fun e =>
    match e with
    | .field number => some number
    | .deref => none).getLast?

/-- `link_if_sync_variable` of `translator/sync.rs`.  For a `place_linked`
without projections, the generalized link applies; otherwise the function
returns unchanged memory unless `place_to_link` is itself a sync variable, in
which case the last field projection gives the aggregate index (its absence
is the internal `BUG` panic) and the link goes to the base place when a
dereference occurs in the projections. -/
def link_if_sync_variable (typeOf : Place → String) (place_to_link place_linked : Place)
    (memory : Memory) : Except String Memory :=
  if place_linked.projection.isEmpty then
    .ok (generalized_link_place_if_sync_variable typeOf
      place_to_link place_linked place_linked memory)
  else if !check_if_sync_variable typeOf place_to_link then
    .ok memory
  else
    match last_field_number place_linked.projection with
    | none => .error "BUG: A field number was not found for an indirect place"
    | some field_number =>
        if place_linked.projection.contains ProjectionElem.deref then
          .ok (memory.link_field_in_aggregate place_to_link
            { place_linked with projection := [] } field_number)
        else
          .ok (memory.link_field_in_aggregate place_to_link place_linked field_number)

/-- Modelled from the spec: `utils::extract_nth_argument_as_place` is not in
the source snapshot.  Section 4.2: the receiver is looked for among the
arguments by position; a `Copy` or `Move` operand yields its place, a
constant or a missing argument yields nothing (and is ignored without
error by the callers). -/
def extract_nth_argument_as_place (args : List Operand) (index : Nat) : Option Place :=
  match args.get? index with
  | some (Operand.copy place) => some place
  | some (Operand.move place) => some place
  | _ => none

/-- `link_return_value_if_sync_variable` of `translator/sync.rs`: if the
first argument holds a sync variable, the return value is linked to it; a
missing or constant first argument means there is nothing to check and the
function simply returns. -/
def link_return_value_if_sync_variable (typeOf : Place → String) (args : List Operand)
    (return_value : Place) (memory : Memory) : Except String Memory :=
  match extract_nth_argument_as_place args 0 with
  | none => .ok memory
  | some first_argument => link_if_sync_variable typeOf return_value first_argument memory

/-! ## C3: only the first argument is inspected; which operands are ignored
without error, and which raise the internal-invariant error -/

/-- C3 (amended): the receiver lookup of a translated call inspects only the
first argument — two argument lists with the same first element translate
identically — and a missing first argument, a constant first argument, an
unprojected first argument that is not a sync handle, and a projected first
argument whose call has a non-sync return value all leave the memory
unchanged with no error; but a projected first argument with no field
projection raises the internal-invariant `BUG` error when the call's return
value is sync-typed (the `expect` of `link_if_sync_variable`). -/
theorem only_first_argument_inspected (typeOf : Place → String) (args args' : List Operand)
    (return_value : Place) (memory : Memory) (h : args.get? 0 = args'.get? 0) :
    link_return_value_if_sync_variable typeOf args return_value memory =
      link_return_value_if_sync_variable typeOf args' return_value memory ∧
    link_return_value_if_sync_variable typeOf [] return_value memory = .ok memory ∧
    (∀ c rest, link_return_value_if_sync_variable typeOf (Operand.constant c :: rest)
        return_value memory = .ok memory) ∧
    (∀ p rest, check_if_sync_variable typeOf p = false → p.projection = [] →
      link_return_value_if_sync_variable typeOf (Operand.move p :: rest)
        return_value memory = .ok memory) ∧
    (∀ p rest, check_if_sync_variable typeOf return_value = false → p.projection ≠ [] →
      link_return_value_if_sync_variable typeOf (Operand.move p :: rest)
        return_value memory = .ok memory) ∧
    (∀ p rest, check_if_sync_variable typeOf return_value = true → p.projection ≠ [] →
      last_field_number p.projection = none →
      link_return_value_if_sync_variable typeOf (Operand.move p :: rest)
        return_value memory =
          .error "BUG: A field number was not found for an indirect place") := by
  refine ⟨?_, rfl, fun c rest => rfl, fun p rest hsync hproj => ?_,
    fun p rest hret hne => ?_, fun p rest hret hne hlf => ?_⟩
  · unfold link_return_value_if_sync_variable extract_nth_argument_as_place
    rw [h]
  · simp only [check_if_sync_variable, Bool.or_eq_false_iff] at hsync
    obtain ⟨⟨⟨h1, h2⟩, h3⟩, h4⟩ := hsync
    simp [link_return_value_if_sync_variable, extract_nth_argument_as_place,
      link_if_sync_variable, generalized_link_place_if_sync_variable, hproj,
      h1, h2, h3, h4]
  · have hempty : p.projection.isEmpty = false := by
      simpa [List.isEmpty_iff] using hne
    simp [link_return_value_if_sync_variable, extract_nth_argument_as_place,
      link_if_sync_variable, hempty, hret]
  · have hempty : p.projection.isEmpty = false := by
      simpa [List.isEmpty_iff] using hne
    simp [link_return_value_if_sync_variable, extract_nth_argument_as_place,
      link_if_sync_variable, hempty, hret, hlf]

/-- C3 witness: two calls whose first argument is the same moved place and
whose later arguments differ translate identically. -/
theorem only_first_argument_inspected_witness :
    link_return_value_if_sync_variable (fun _ => "i32")
        [Operand.move ⟨1, []⟩, Operand.constant 7] ⟨0, []⟩ ⟨[], []⟩ =
      link_return_value_if_sync_variable (fun _ => "i32")
        [Operand.move ⟨1, []⟩] ⟨0, []⟩ ⟨[], []⟩ :=
  (only_first_argument_inspected (fun _ => "i32")
    [Operand.move ⟨1, []⟩, Operand.constant 7] [Operand.move ⟨1, []⟩] ⟨0, []⟩ ⟨[], []⟩ rfl).1

/-- C3 counterexample: a non-handle first argument is not always ignored
without error.  For the call `f(move (*_1))` where `*_1` has the non-handle
type `i32` (so `check_if_sync_variable` is `false` on it) and the call's
return value `_0` is of type `std::sync::Condvar`, the translation returns
the internal `BUG` error — the `expect` panic of `link_if_sync_variable` on
an indirect place without a field projection — rather than ignoring the
operand. -/
theorem non_handle_projected_argument_raises_error :
    check_if_sync_variable
        (fun p => if p.localIdx == 0 then "std::sync::Condvar" else "i32")
        ⟨1, [ProjectionElem.deref]⟩ = false ∧
    link_return_value_if_sync_variable
        (fun p => if p.localIdx == 0 then "std::sync::Condvar" else "i32")
        [Operand.move ⟨1, [ProjectionElem.deref]⟩] ⟨0, []⟩ ⟨[], []⟩ =
      .error "BUG: A field number was not found for an indirect place" :=
  ⟨by decide, by rfl⟩

/-! ## C7: the naming contract -/

/-- C7: for every function name and every index, the naming functions produce
exactly the labels of the naming contract: `sanitize(f) ++ "_RETURN"` for the
return transition, the `_CALL`/`_CALL_UNWIND` pair for a foreign call,
`_DIVERGING_CALL` for a diverging call, `_PANIC` for a panic transition,
`std_thread_spawn_i` and `std_thread_spawn_i_UNWIND` for the thread spawn
pair at per-kind counter value `i`, and `THREAD_i_START`/`THREAD_i_END` for
the thread lifecycle places. -/
theorem naming_contract_exact_labels (f : String) (i : Nat) :
    return_transition_label f = sanitize f ++ "_RETURN" ∧
    foreign_call_transition_labels f =
      (sanitize f ++ "_CALL", sanitize f ++ "_CALL_UNWIND") ∧
    diverging_call_transition_label f = sanitize f ++ "_DIVERGING_CALL" ∧
    panic_transition_label f = sanitize f ++ "_PANIC" ∧
    spawn_transition_labels i =
      ("std_thread_spawn_" ++ toString i, "std_thread_spawn_" ++ toString i ++ "_UNWIND") ∧
    start_place_label i = "THREAD_" ++ toString i ++ "_START" ∧
    end_place_label i = "THREAD_" ++ toString i ++ "_END" :=
  ⟨rfl, rfl, rfl, rfl, rfl, rfl, rfl⟩

/-! ## C10: recognizing a concrete instantiation of a generic type
(`utils.rs`, `is_place_ty_with_concrete_type`) -/

/-- Rust's `str::split(&['<', '>'])` over the characters of the string: the
pieces between separator characters, with an empty piece for every leading,
trailing or doubled separator. -/
def split_parts (p : Char → Bool) : List Char → List (List Char)
  | [] => [[]]
  | c :: cs =>
      if p c then [] :: split_parts p cs
      else
        match split_parts p cs with
        | [] => [[c]]
        | h :: t => (c :: h) :: t

/-- The type string split on `'<'` and `'>'`, as
`is_place_ty_with_concrete_type` computes it. -/
def type_string_parts (s : String) : List String :=
  (split_parts (fun c => c == '<' || c == '>') s.toList).map String.mk

/-- `is_place_ty_with_concrete_type` of `utils.rs`: the place's type string
(`place_ty.ty.to_string()` at the rustc boundary) and the expected pattern
are both split on `'<'` and `'>'`; the part counts must match, parts at a
position where the pattern is not `"T"` must equal the pattern part, and the
part at a `"T"` position must itself be different from `"T"` (a concrete
type, not the uninstantiated parameter). -/
def is_place_ty_with_concrete_type (ty_string expected_ty_str : String) : Bool :=
  let expected_parts := type_string_parts expected_ty_str
  let parts := type_string_parts ty_string
  if parts.length = expected_parts.length then
    (parts.zip expected_parts).all fun pe =>
      if pe.2 == "T" then !(pe.1 == "T") else pe.1 == pe.2
  else false

/-- Pointwise reading of the zipped check of `is_place_ty_with_concrete_type`. -/
theorem zip_all_check_iff (f : String × String → Bool) (ps es : List String) :
    ps.length = es.length →
    (((ps.zip es).all f = true) ↔
      ∀ i (h1 : i < ps.length) (h2 : i < es.length),
        f (ps.get ⟨i, h1⟩, es.get ⟨i, h2⟩) = true) := by
  induction ps generalizing es with
  | nil =>
      intro hlen
      cases es with
      | nil => simp [List.all_nil]
      | cons e es => simp at hlen
  | cons a ps ih =>
      intro hlen
      cases es with
      | nil => simp at hlen
      | cons e es =>
          simp only [List.length_cons, Nat.succ.injEq] at hlen
          simp only [List.zip_cons_cons, List.all_cons, Bool.and_eq_true, ih es hlen]
          constructor
          · rintro ⟨hhead, htail⟩ i h1 h2
            cases i with
            | zero => exact hhead
            | succ j =>
                exact htail j (Nat.lt_of_succ_lt_succ h1) (Nat.lt_of_succ_lt_succ h2)
          · intro hall
            refine ⟨hall 0 (Nat.succ_pos _) (Nat.succ_pos _), fun j hj1 hj2 => ?_⟩
            exact hall (j + 1) (Nat.succ_lt_succ hj1) (Nat.succ_lt_succ hj2)

/-- C10: `is_place_ty_with_concrete_type` returns `true` exactly when the
type string and the pattern split into the same number of parts, every part
at a non-`"T"` pattern position equals the pattern part, and every part at a
`"T"` position differs from the literal `"T"`; in particular the
uninstantiated generic `std::sync::Mutex<T>` itself is rejected. -/
theorem is_place_ty_with_concrete_type_characterization (ty_string expected_ty_str : String) :
    (is_place_ty_with_concrete_type ty_string expected_ty_str = true ↔
      (type_string_parts ty_string).length = (type_string_parts expected_ty_str).length ∧
      ∀ i (h1 : i < (type_string_parts ty_string).length)
          (h2 : i < (type_string_parts expected_ty_str).length),
        ((type_string_parts expected_ty_str).get ⟨i, h2⟩ = "T" →
          (type_string_parts ty_string).get ⟨i, h1⟩ ≠ "T") ∧
        ((type_string_parts expected_ty_str).get ⟨i, h2⟩ ≠ "T" →
          (type_string_parts ty_string).get ⟨i, h1⟩ =
            (type_string_parts expected_ty_str).get ⟨i, h2⟩)) ∧
    is_place_ty_with_concrete_type "std::sync::Mutex<T>" "std::sync::Mutex<T>" = false := by
  constructor
  · unfold is_place_ty_with_concrete_type
    by_cases hlen : (type_string_parts ty_string).length =
        (type_string_parts expected_ty_str).length
    · rw [if_pos hlen,
        zip_all_check_iff _ (type_string_parts ty_string) (type_string_parts expected_ty_str) hlen]
      simp only [hlen, true_and]
      constructor
      · intro hall i h1 h2
        have := hall i h1 h2
        by_cases hT : (type_string_parts expected_ty_str).get ⟨i, h2⟩ = "T"
        · rw [if_pos (by simpa only [beq_iff_eq] using hT)] at this
          simp only [Bool.not_eq_eq_eq_not, Bool.not_true, beq_eq_false_iff_ne] at this
          exact ⟨fun _ => this, fun hc => absurd hT hc⟩
        · rw [if_neg (by simpa only [beq_iff_eq] using hT)] at this
          simp only [beq_iff_eq] at this
          exact ⟨fun hc => absurd hc hT, fun _ => this⟩
      · intro hpt i h1 h2
        obtain ⟨hT, hnT⟩ := hpt i h1 h2
        by_cases hc : (type_string_parts expected_ty_str).get ⟨i, h2⟩ = "T"
        · rw [if_pos (by simpa only [beq_iff_eq] using hc)]
          simpa using hT hc
        · rw [if_neg (by simpa only [beq_iff_eq] using hc)]
          simpa using hnT hc
    · rw [if_neg hlen]
      simp [hlen]
  · decide
